import Mathlib

/-!
Verification development for the typeform-cli tool (src/tools/typeform-cli.py).

The embedding models Python JSON-like values with the inductive type PyVal
(None, strings, integers, lists, dicts).  Python dicts are association lists
with unique keys in insertion order; d.get(k) is pyget, d[k] = v is dset
(updating an existing key keeps its position, a new key is appended at the
end, exactly as CPython does).  A Python function that can raise is modelled
as an Option-valued function, with Option.none standing for the raised
exception.

Embedded functions, kept name-for-name with the source:
  - _sanitize_responses  (sanitize_responses below) with its inner loops
    split into sanitize_answer and sanitize_response;
  - _get_form_id         (get_form_id below), taking the remote listing as
    the list of its pages, page 1 first, with the reported page_count equal
    to the number of pages;
  - pull_responses       (pull_responses below), taking the fetched
    responses dict and returning what the orchestration does with it:
    raise, or write a file with a given dict;
  - to_machine_friendly_title.
-/

namespace TypeformCLI

/-- Python JSON-like values: None, str, int, list, dict. -/
inductive PyVal where
  | none : PyVal
  | str : String → PyVal
  | int : Int → PyVal
  | list : List PyVal → PyVal
  | obj : List (String × PyVal) → PyVal

/-- A Python dict with string keys, as an association list in insertion order. -/
abbrev Dict := List (String × PyVal)

/-- Lookup of a key in a dict, Option.none when the key is absent. -/
def dget (d : Dict) (k : String) : Option PyVal :=
  match d with
  | [] => Option.none
  | (k', v) :: rest => if k' = k then some v else dget rest k

/-- Python d.get(k): the stored value, or None when the key is absent. -/
def pyget (d : Dict) (k : String) : PyVal :=
  (dget d k).getD PyVal.none

/-- Whether a dict has a key. -/
def dhas (d : Dict) (k : String) : Bool :=
  match d with
  | [] => false
  | (k', _) :: rest => k' = k || dhas rest k

/-- Python d[k] = v: update in place when the key exists (its position is
kept), otherwise append the new entry at the end.  Keys of a Python dict are
unique, so updating the first occurrence is exact. -/
def dset : Dict → String → PyVal → Dict
  | [], k, v => [(k, v)]
  | (k', v') :: rest, k, v =>
    if k' = k then (k, v) :: rest else (k', v') :: dset rest k v

/-- Whether a Python value may be used as a dict key (lists and dicts are
unhashable and raise TypeError). -/
def hashable : PyVal → Bool
  | PyVal.list _ => false
  | PyVal.obj _ => false
  | _ => true

/-- The Python comparison answer.get("type") == "email". -/
def isEmailType (v : PyVal) : Bool :=
  match v with
  | PyVal.str s => s = "email"
  | _ => false

/-- A for-loop over a list whose body may raise: stop at the first failure. -/
def mapOpt (f : α → Option β) : List α → Option (List β)
  | [] => some []
  | x :: xs =>
    match f x with
    | Option.none => Option.none
    | some y =>
      match mapOpt f xs with
      | Option.none => Option.none
      | some ys => some (y :: ys)

/-- Body of the inner loop of _sanitize_responses for one answer, rid being
response.get("response_id").  A non-dict answer raises on answer.get.  For an
email-type answer the source first stores owner_ids[answer.get("email")], a
TypeError when the old email value is unhashable (owner_ids itself is
discarded, this possible raise is its only observable effect), then performs
the mutation answer["email"] = response.get("response_id"). -/
def sanitize_answer (rid : PyVal) : PyVal → Option PyVal
  | PyVal.obj af =>
    if isEmailType (pyget af "type") then
      if hashable (pyget af "email") then
        some (PyVal.obj (dset af "email" rid))
      else Option.none
    else some (PyVal.obj af)
  | _ => Option.none

/-- Body of the outer loop of _sanitize_responses for one response: iterate
response.get("answers") (a raise when that is not a list) mutating the answer
dicts in place. -/
def sanitize_response : PyVal → Option PyVal
  | PyVal.obj rf =>
    match pyget rf "answers" with
    | PyVal.list ans =>
      match mapOpt (sanitize_answer (pyget rf "response_id")) ans with
      | some ans' => some (PyVal.obj (dset rf "answers" (PyVal.list ans')))
      | Option.none => Option.none
    | _ => Option.none
  | _ => Option.none

/-- _sanitize_responses: iterate responses.get("items") (a raise when that is
not a list), sanitizing every response in place, and return the same dict. -/
def sanitize_responses (responses : Dict) : Option Dict :=
  match pyget responses "items" with
  | PyVal.list items =>
    match mapOpt sanitize_response items with
    | some items' => some (dset responses "items" (PyVal.list items'))
    | Option.none => Option.none
  | _ => Option.none

/-- The hard-coded target form title of the tool. -/
def TITLE : String := "Dogs & Children Survey"

/-- One remote form record, a dict as returned in a listing page. -/
abbrev Form := Dict

/-- One listing page: the items list of the dict the remote returns. -/
abbrev Page := List Form

/-- The Python comparison form.get("title") == self.TITLE. -/
def title_matches (f : Form) : Bool :=
  match pyget f "title" with
  | PyVal.str s => s = TITLE
  | _ => false

/-- Inner loop of _get_form_id over one page: the first form whose title
matches, if any. -/
def find_form : Page → Option Form
  | [] => Option.none
  | f :: rest => if title_matches f then some f else find_form rest

/-- _get_form_id: scan the pages in order, page 1 first, and return
(form.get("title"), form.get("id")) of the first matching form; Option.none
models the RuntimeError raised when no page holds the title. -/
def get_form_id : List Page → Option (PyVal × PyVal)
  | [] => Option.none
  | page :: rest =>
    match find_form page with
    | some f => some (pyget f "title", pyget f "id")
    | Option.none => get_form_id rest

/-- Outcome of pull_responses on one fetched responses dict. -/
inductive PullResult where
  | typeErr : PullResult
  | paginationErr : PullResult
  | sanitizeErr : PullResult
  | write : Dict → PullResult
  | skipWrite : PullResult

/-- The Python comparison cnt == 0 (false, never a raise, on non-ints). -/
def py_eq_int0 (v : PyVal) : Bool :=
  match v with
  | PyVal.int n => n = 0
  | _ => false

/-- The Python comparison v >= n against an int literal: a TypeError
(Option.none) unless v is an int. -/
def py_ge_int (v : PyVal) (n : Int) : Option Bool :=
  match v with
  | PyVal.int m => some (n ≤ m)
  | _ => Option.none

/-- The Python comparison v > n against an int literal: a TypeError
(Option.none) unless v is an int. -/
def py_gt_int (v : PyVal) (n : Int) : Option Bool :=
  match v with
  | PyVal.int m => some (n < m)
  | _ => Option.none

/-- Tail of pull_responses: sanitize, then write when
len(responses.items()) > 0, which counts the KEYS of the top-level dict. -/
def pull_write (responses : Dict) : PullResult :=
  match sanitize_responses responses with
  | some s => if 0 < s.length then PullResult.write s else PullResult.skipWrite
  | Option.none => PullResult.sanitizeErr

/-- pull_responses, from the fetched responses dict onward (source lines
64 to 85): branch on cnt = responses.get("total_items"); the elif raises the
pagination RuntimeError when cnt >= 1000 or responses.get("page_count") > 1,
but only when cnt == 0 was false; then sanitize and conditionally write. -/
def pull_responses (responses : Dict) : PullResult :=
  let cnt := pyget responses "total_items"
  if py_eq_int0 cnt then
    pull_write responses
  else
    match py_ge_int cnt 1000 with
    | Option.none => PullResult.typeErr
    | some true => PullResult.paginationErr
    | some false =>
      match py_gt_int (pyget responses "page_count") 1 with
      | Option.none => PullResult.typeErr
      | some true => PullResult.paginationErr
      | some false => pull_write responses

/-- The per-character table handed to str.maketrans in the source. -/
def translate_map (c : Char) : Option (List Char) :=
  if c = ' ' then some ['-']
  else if c = '&' then some ['a', 'n', 'd']
  else Option.none

/-- str.translate over the characters of the title: mapped characters are
replaced by their replacement string, all others kept. -/
def str_translate : List Char → List Char
  | [] => []
  | c :: cs =>
    (match translate_map c with
     | some r => r
     | Option.none => [c]) ++ str_translate cs

/-- str.lower over a character list (the titles at hand are ASCII, where
Char.toLower agrees with Python str.lower). -/
def str_lower (cs : List Char) : List Char :=
  cs.map Char.toLower

/-- to_machine_friendly_title: translate, then lowercase. -/
def to_machine_friendly_title (title : String) : String :=
  String.mk (str_lower (str_translate title.data))

/-- Modelled from the spec, for comparison with the source function: in one
pass, lowercase the title, replace each space with a hyphen and each
ampersand with the word and, and transform no other character. -/
def slug_spec_chars : List Char → List Char
  | [] => []
  | c :: cs =>
    (if c = ' ' then ['-']
     else if c = '&' then ['a', 'n', 'd']
     else [Char.toLower c]) ++ slug_spec_chars cs

/-- Modelled from the spec: the slug function as the spec words it. -/
def slug_spec (title : String) : String :=
  String.mk (slug_spec_chars title.data)

/-- Scenario A input from the spec. -/
def scenarioA : Dict :=
  [("items", PyVal.list
    [PyVal.obj
      [("response_id", PyVal.str "r1"),
       ("answers", PyVal.list
         [PyVal.obj [("type", PyVal.str "email"), ("value", PyVal.str "a@x.com")],
          PyVal.obj [("type", PyVal.str "text"), ("value", PyVal.str "hi")]])]])]

/-- What the source actually produces on Scenario A: the value field of the
email answer is untouched and an email field is appended, set to r1. -/
def scenarioA_out : Dict :=
  [("items", PyVal.list
    [PyVal.obj
      [("response_id", PyVal.str "r1"),
       ("answers", PyVal.list
         [PyVal.obj [("type", PyVal.str "email"), ("value", PyVal.str "a@x.com"),
                     ("email", PyVal.str "r1")],
          PyVal.obj [("type", PyVal.str "text"), ("value", PyVal.str "hi")]])]])]

/-- Scenario B input from the spec: a fetched response set with zero items. -/
def scenarioB : Dict :=
  [("items", PyVal.list []), ("total_items", PyVal.int 0), ("page_count", PyVal.int 0)]

/-- A fetched response set reporting zero items spread over two pages. -/
def responses5 : Dict :=
  [("items", PyVal.list []), ("total_items", PyVal.int 0), ("page_count", PyVal.int 2)]

/-- Scenario D input from the spec: a form reporting 1000 responses. -/
def responsesD : Dict :=
  [("items", PyVal.list []), ("total_items", PyVal.int 1000), ("page_count", PyVal.int 1)]

/-- A responses dict with no items key at all. -/
def noItems : Dict := [("total_items", PyVal.int 0)]

/-- The fields of the first answer of the first response of a responses dict,
for reading concrete outputs back. -/
def first_answer (d : Dict) : Dict :=
  match pyget d "items" with
  | PyVal.list (PyVal.obj rf :: _) =>
    (match pyget rf "answers" with
     | PyVal.list (PyVal.obj af :: _) => af
     | _ => [])
  | _ => []

/-- One form record per page, for the locator scenarios. -/
def cexForm1 : Form := [("title", PyVal.str TITLE), ("id", PyVal.str "id1")]

/-- The same title on a later page, with a different id. -/
def cexForm2 : Form := [("title", PyVal.str TITLE), ("id", PyVal.str "id2")]

/-- A form whose title is not the target. -/
def otherForm : Form := [("title", PyVal.str "Other Survey"), ("id", PyVal.str "idX")]

/-- Page holding only a non-matching form. -/
def pageOther : Page := [otherForm]

/-- Lifts an answer-level relation (taking the response_id of the enclosing
response, the input answer and the output answer) through the structure that
sanitization preserves: the items lists pair up in order and in equal number,
each response is a dict whose response_id is untouched, and the answers lists
pair up in order and in equal number under the relation. -/
def respects (P : PyVal → PyVal → PyVal → Prop) (r e : Dict) : Prop :=
  ∃ items items', pyget r "items" = PyVal.list items ∧
    pyget e "items" = PyVal.list items' ∧
    items'.length = items.length ∧
    List.Forall₂ (fun resp resp' => ∃ rf rf' ans ans',
      resp = PyVal.obj rf ∧ resp' = PyVal.obj rf' ∧
      pyget rf' "response_id" = pyget rf "response_id" ∧
      pyget rf "answers" = PyVal.list ans ∧
      pyget rf' "answers" = PyVal.list ans' ∧
      ans'.length = ans.length ∧
      List.Forall₂ (P (pyget rf "response_id")) ans ans') items items'

/-- Answer-level contract for the amended C1: an email-type answer has its
email field set to the response id while its value field is untouched; any
other answer is returned unchanged. -/
def c1_answer (rid a a' : PyVal) : Prop :=
  ∃ af af', a = PyVal.obj af ∧ a' = PyVal.obj af' ∧
    (isEmailType (pyget af "type") = true →
      pyget af' "email" = rid ∧ pyget af' "value" = pyget af "value") ∧
    (isEmailType (pyget af "type") = false → a' = a)

/-- Answer-level contract for C7: the type field is never mutated and a
non-email answer is byte-identical before and after. -/
def answer_frame (_rid a a' : PyVal) : Prop :=
  ∃ af af', a = PyVal.obj af ∧ a' = PyVal.obj af' ∧
    pyget af' "type" = pyget af "type" ∧
    (isEmailType (pyget af "type") = false → a' = a)

/-- Answer-level contract for C9: every field other than the one named email
is left exactly as it was (in particular the value field), an email-type
answer ends with an email field holding the response id (added when it was
absent), and a non-email answer keeps exactly its fields. -/
def answer_email_only (rid a a' : PyVal) : Prop :=
  ∃ af af', a = PyVal.obj af ∧ a' = PyVal.obj af' ∧
    (∀ k, k ≠ "email" → dget af' k = dget af k) ∧
    (isEmailType (pyget af "type") = true → dget af' "email" = some rid) ∧
    (isEmailType (pyget af "type") = false → af' = af)

/-- Whether a response record carries a hashable response_id.  The spec data
model types response_id as a string, which is always hashable; an unhashable
response_id (a list or dict) would make the owner_ids bookkeeping of a second
sanitization pass raise. -/
def resp_rid_hashable : PyVal → Bool
  | PyVal.obj rf => hashable (pyget rf "response_id")
  | _ => true

/-- Whether every response of a responses dict carries a hashable
response_id, as the spec data model guarantees. -/
def hashable_rids (r : Dict) : Bool :=
  match pyget r "items" with
  | PyVal.list items => items.all resp_rid_hashable
  | _ => true

theorem dhas_false_iff (d : Dict) (k : String) :
    dhas d k = false ↔ ∀ p ∈ d, p.1 ≠ k := by
  induction d with
  | nil => simp [dhas]
  | cons p rest ih =>
    obtain ⟨k', v'⟩ := p
    simp [dhas, ih]

theorem dget_dset_self (d : Dict) (k : String) (v : PyVal) :
    dget (dset d k v) k = some v := by
  induction d with
  | nil => simp [dset, dget]
  | cons p rest ih =>
    obtain ⟨k', v'⟩ := p
    by_cases hk : k' = k
    · simp [dset, dget, hk]
    · simp [dset, dget, hk, ih]

theorem dget_dset_ne (d : Dict) (k k' : String) (v : PyVal) (h : k' ≠ k) :
    dget (dset d k v) k' = dget d k' := by
  have hne : ¬ k = k' := fun hc => h hc.symm
  induction d with
  | nil => simp [dset, dget, hne]
  | cons p rest ih =>
    obtain ⟨k0, v0⟩ := p
    by_cases hk : k0 = k
    · subst hk
      simp [dset, dget, hne]
    · simp [dset, dget, hk, ih]

theorem pyget_dset_self (d : Dict) (k : String) (v : PyVal) :
    pyget (dset d k v) k = v := by
  simp [pyget, dget_dset_self]

theorem pyget_dset_ne (d : Dict) (k k' : String) (v : PyVal) (h : k' ≠ k) :
    pyget (dset d k v) k' = pyget d k' := by
  simp [pyget, dget_dset_ne d k k' v h]

theorem dset_dset_self (d : Dict) (k : String) (v : PyVal) :
    dset (dset d k v) k v = dset d k v := by
  induction d with
  | nil => simp [dset]
  | cons p rest ih =>
    obtain ⟨k', v'⟩ := p
    by_cases hk : k' = k
    · simp [dset, hk]
    · simp [dset, hk, ih]

theorem mapOpt_some_of_mem (f : α → Option β) (l : List α) (l' : List β)
    (h : mapOpt f l = some l') : ∀ x ∈ l, ∃ y, f x = some y := by
  induction l generalizing l' with
  | nil => simp
  | cons a as ih =>
    intro x hx
    unfold mapOpt at h
    rcases hfa : f a with _ | y
    · rw [hfa] at h; cases h
    · rw [hfa] at h
      rcases hrest : mapOpt f as with _ | ys
      · rw [hrest] at h; cases h
      · rcases List.mem_cons.mp hx with rfl | hmem
        · exact ⟨y, hfa⟩
        · exact ih ys hrest x hmem

theorem mapOpt_none_of_mem (f : α → Option β) (l : List α) (x : α)
    (hx : x ∈ l) (hfx : f x = Option.none) : mapOpt f l = Option.none := by
  induction l with
  | nil => cases hx
  | cons a as ih =>
    rcases List.mem_cons.mp hx with rfl | hmem
    · simp [mapOpt, hfx]
    · unfold mapOpt
      rcases hfa : f a with _ | y
      · rfl
      · simp [ih hmem]

theorem mapOpt_forall2 (f : α → Option β) (l : List α) (l' : List β)
    (h : mapOpt f l = some l') : List.Forall₂ (fun a b => f a = some b) l l' := by
  induction l generalizing l' with
  | nil =>
    unfold mapOpt at h
    cases h
    exact List.Forall₂.nil
  | cons a as ih =>
    unfold mapOpt at h
    rcases hfa : f a with _ | y
    · rw [hfa] at h; cases h
    · rw [hfa] at h
      rcases hrest : mapOpt f as with _ | ys
      · rw [hrest] at h; cases h
      · rw [hrest] at h
        cases h
        exact List.Forall₂.cons hfa (ih ys hrest)

theorem mapOpt_idem_all (f : α → Option α) (p : α → Bool)
    (hf : ∀ a b, p a = true → f a = some b → f b = some b ∧ p b = true) :
    ∀ (l l' : List α), l.all p = true → mapOpt f l = some l' →
      mapOpt f l' = some l' := by
  intro l
  induction l with
  | nil =>
    intro l' _ h
    unfold mapOpt at h
    cases h
    rfl
  | cons a as ih =>
    intro l' hall h
    unfold mapOpt at h
    rcases hfa : f a with _ | y
    · rw [hfa] at h; cases h
    · rw [hfa] at h
      rcases hrest : mapOpt f as with _ | ys
      · rw [hrest] at h; cases h
      · rw [hrest] at h
        cases h
        have hpa : p a = true := by
          have := List.all_eq_true.mp hall
          exact this a (by simp)
        have htail : as.all p = true := by
          rw [List.all_eq_true] at hall ⊢
          intro x hx
          exact hall x (by simp [hx])
        rcases hf a y hpa hfa with ⟨hy, _⟩
        simp [mapOpt, hy, ih ys htail hrest]

theorem sanitize_answer_inv (rid a a' : PyVal)
    (h : sanitize_answer rid a = some a') :
    ∃ af, a = PyVal.obj af ∧
      ((isEmailType (pyget af "type") = true ∧ hashable (pyget af "email") = true ∧
        a' = PyVal.obj (dset af "email" rid)) ∨
       (isEmailType (pyget af "type") = false ∧ a' = a)) := by
  cases a with
  | obj af =>
    refine ⟨af, rfl, ?_⟩
    simp only [sanitize_answer] at h
    split at h
    · split at h
      · cases h
        refine Or.inl ⟨by assumption, by assumption, rfl⟩
      · cases h
    · cases h
      exact Or.inr ⟨by simp_all, rfl⟩
  | none => cases h
  | str s => cases h
  | int n => cases h
  | list l => cases h

theorem sanitize_response_inv (resp resp' : PyVal)
    (h : sanitize_response resp = some resp') :
    ∃ rf ans ans', resp = PyVal.obj rf ∧
      pyget rf "answers" = PyVal.list ans ∧
      mapOpt (sanitize_answer (pyget rf "response_id")) ans = some ans' ∧
      resp' = PyVal.obj (dset rf "answers" (PyVal.list ans')) := by
  cases resp with
  | obj rf =>
    simp only [sanitize_response] at h
    split at h
    next ans hans =>
      split at h
      next ans' hmap =>
        cases h
        exact ⟨rf, ans, ans', rfl, hans, hmap, rfl⟩
      next hmap => cases h
    next hother => cases h
  | none => cases h
  | str s => cases h
  | int n => cases h
  | list l => cases h

theorem sanitize_responses_inv (r e : Dict)
    (h : sanitize_responses r = some e) :
    ∃ items items', pyget r "items" = PyVal.list items ∧
      mapOpt sanitize_response items = some items' ∧
      e = dset r "items" (PyVal.list items') := by
  simp only [sanitize_responses] at h
  split at h
  next items hit =>
    split at h
    next items' hmap =>
      cases h
      exact ⟨items, items', hit, hmap, rfl⟩
    next hmap => cases h
  next hother => cases h

theorem find_form_eq_none_iff (page : Page) :
    find_form page = Option.none ↔ ∀ f ∈ page, title_matches f = false := by
  induction page with
  | nil => simp [find_form]
  | cons f rest ih =>
    by_cases hf : title_matches f
    · simp only [find_form, if_pos hf]
      constructor
      · intro h; cases h
      · intro hall
        exact absurd (hall f (by simp)) (by simp [hf])
    · simp only [find_form, if_neg hf, ih]
      constructor
      · intro hall g hg
        rcases List.mem_cons.mp hg with rfl | hmem
        · simpa using hf
        · exact hall g hmem
      · intro hall g hg
        exact hall g (by simp [hg])

/-- C2 counterexample: on a two-page listing where the target title appears on
page 1 with id id1 and on page 2 with id id2, _get_form_id returns id1, the id
from the earlier page, because the source returns from inside the page loop at
the first match; the claimed last-write-wins result id2 is not produced. -/
theorem c2_counterexample :
    get_form_id [[cexForm1], [cexForm2]] = some (PyVal.str TITLE, PyVal.str "id1") ∧
    get_form_id [[cexForm1], [cexForm2]] ≠ some (PyVal.str TITLE, PyVal.str "id2") := by
  refine ⟨rfl, ?_⟩
  intro hcontra
  rw [show get_form_id [[cexForm1], [cexForm2]]
        = some (PyVal.str TITLE, PyVal.str "id1") from rfl] at hcontra
  injection hcontra with hpair
  have hid : PyVal.str "id1" = PyVal.str "id2" := congrArg Prod.snd hpair
  injection hid with hs
  exact absurd hs (by decide)

/-- C2 amended: the locator uses first-occurrence-wins semantics: when no page
before pg carries the target title and f is the first matching form on pg, the
result is the title and id of f, whatever the later pages hold. -/
theorem c2_amended (pre : List Page) (pg : Page) (post : List Page) (f : Form)
    (hpre : ∀ page ∈ pre, ∀ g ∈ page, title_matches g = false)
    (hf : find_form pg = some f) :
    get_form_id (pre ++ pg :: post) = some (pyget f "title", pyget f "id") := by
  induction pre with
  | nil => simp [get_form_id, hf]
  | cons p rest ih =>
    have hp : find_form p = Option.none :=
      (find_form_eq_none_iff p).mpr (hpre p (by simp))
    simp only [List.cons_append, get_form_id, hp]
    exact ih (fun q hq g hg => hpre q (by simp [hq]) g hg)

/-- C2 amended, witness: the two-page scenario, where the id of page 1 wins. -/
theorem c2_amended_witness :
    get_form_id ([] ++ [cexForm1] :: [[cexForm2]])
      = some (PyVal.str TITLE, PyVal.str "id1") :=
  c2_amended [] [cexForm1] [[cexForm2]] cexForm1
    (fun page hp => absurd hp (List.not_mem_nil page)) rfl

/-- C4 counterexample: when the target title never appears, _get_form_id does
not terminate normally with an empty result: it raises the RuntimeError that
the form was not found, modelled by Option.none. -/
theorem c4_counterexample :
    get_form_id [pageOther] = Option.none ∧ title_matches otherForm = false :=
  ⟨rfl, rfl⟩

/-- C4 amended: on every page sequence in which no form carries the target
title, _get_form_id raises the not-found RuntimeError (modelled Option.none)
instead of returning; absence IS an error at the locator level. -/
theorem c4_amended (pages : List Page)
    (habs : ∀ page ∈ pages, ∀ f ∈ page, title_matches f = false) :
    get_form_id pages = Option.none := by
  induction pages with
  | nil => rfl
  | cons p rest ih =>
    have hp : find_form p = Option.none :=
      (find_form_eq_none_iff p).mpr (habs p (by simp))
    simp only [get_form_id, hp]
    exact ih (fun q hq f hf => habs q (by simp [hq]) f hf)

/-- C4 amended, witness: a one-page listing without the title raises. -/
theorem c4_amended_witness : get_form_id [pageOther] = Option.none :=
  c4_amended [pageOther]
    (by
      intro page hp f hf
      rw [List.mem_singleton] at hp
      subst hp
      rw [pageOther, List.mem_singleton] at hf
      subst hf
      rfl)

theorem slug_chars_eq (cs : List Char) :
    str_lower (str_translate cs) = slug_spec_chars cs := by
  induction cs with
  | nil => rfl
  | cons c cs ih =>
    by_cases h1 : c = ' '
    · subst h1
      simp [str_translate, translate_map, slug_spec_chars, str_lower]
      exact ih
    · by_cases h2 : c = '&'
      · subst h2
        simp [str_translate, translate_map, slug_spec_chars, str_lower]
        exact ih
      · simp [str_translate, translate_map, slug_spec_chars, str_lower, h1, h2]
        exact ih

theorem sanitize_respects (P : PyVal → PyVal → PyVal → Prop)
    (hP : ∀ rid a a', sanitize_answer rid a = some a' → P rid a a')
    (r e : Dict) (h : sanitize_responses r = some e) : respects P r e := by
  rcases sanitize_responses_inv r e h with ⟨items, items', hit, hmap, rfl⟩
  have h2 := mapOpt_forall2 _ _ _ hmap
  refine ⟨items, items', hit, pyget_dset_self r "items" _,
    (List.Forall₂.length_eq h2).symm, ?_⟩
  refine h2.imp ?_
  intro resp resp' hsr
  rcases sanitize_response_inv resp resp' hsr with ⟨rf, ans, ans', rfl, hans, hmapa, rfl⟩
  have h3 := mapOpt_forall2 _ _ _ hmapa
  exact ⟨rf, dset rf "answers" (PyVal.list ans'), ans, ans', rfl, rfl,
    pyget_dset_ne rf "answers" "response_id" _ (by decide),
    hans, pyget_dset_self rf "answers" _,
    (List.Forall₂.length_eq h3).symm,
    h3.imp (fun a a' hx => hP _ a a' hx)⟩

/-- C1 counterexample: on the Scenario A input of the spec, sanitization does
not overwrite the value payload of the email-type answer: the output email
answer still holds its original email a@x.com under value, which differs from
the response id r1; the source touches only the field named email. -/
theorem c1_counterexample :
    sanitize_responses scenarioA = some scenarioA_out ∧
    pyget (first_answer scenarioA_out) "type" = PyVal.str "email" ∧
    pyget (first_answer scenarioA) "value" = PyVal.str "a@x.com" ∧
    pyget (first_answer scenarioA_out) "value" = PyVal.str "a@x.com" ∧
    PyVal.str "a@x.com" ≠ PyVal.str "r1" := by
  refine ⟨rfl, rfl, rfl, rfl, ?_⟩
  intro h
  injection h with hs
  exact absurd hs (by decide)

/-- C1 amended: after sanitize, every answer whose type field equals email has
its email field overwritten with the response_id of the enclosing response,
while its value field keeps its original (possibly email) value; non-email
answers are left unchanged; counts and order are preserved. -/
theorem c1_amended (r e : Dict) (h : sanitize_responses r = some e) :
    respects c1_answer r e := by
  refine sanitize_respects c1_answer ?_ r e h
  intro rid a a' ha
  rcases sanitize_answer_inv rid a a' ha with ⟨af, rfl, hcase⟩
  rcases hcase with ⟨he, hh, rfl⟩ | ⟨he, rfl⟩
  · exact ⟨af, dset af "email" rid, rfl, rfl,
      fun _ => ⟨pyget_dset_self af "email" rid,
                pyget_dset_ne af "email" "value" rid (by decide)⟩,
      fun hne => by rw [he] at hne; cases hne⟩
  · refine ⟨af, af, rfl, rfl, ?_, fun _ => rfl⟩
    intro hem
    rw [he] at hem
    cases hem

/-- C1 amended, witness: Scenario A satisfies the amended contract. -/
theorem c1_amended_witness : respects c1_answer scenarioA scenarioA_out :=
  c1_amended scenarioA scenarioA_out rfl

/-- C3, evaluation at the failing input: for an empty fetched response set the
sanitizer passes the structure through unchanged and total_items is 0, yet
pull_responses still writes the file, because the write guard
len(responses.items()) counts the keys of the top-level dict (3 here), not the
pulled responses; the claimed skip never happens. -/
theorem c3_bug_eval :
    pyget scenarioB "total_items" = PyVal.int 0 ∧
    sanitize_responses scenarioB = some scenarioB ∧
    pull_responses scenarioB = PullResult.write scenarioB :=
  ⟨rfl, rfl, rfl⟩

/-- C5 counterexample: a fetched response set reporting page_count 2, a page
count exceeding 1, with total_items 0: the elif chain sees cnt == 0 first, so
no pagination error is raised and the form is even written. -/
theorem c5_counterexample :
    pyget responses5 "page_count" = PyVal.int 2 ∧
    pull_responses responses5 = PullResult.write responses5 ∧
    pull_responses responses5 ≠ PullResult.paginationErr := by
  refine ⟨rfl, rfl, ?_⟩
  intro h
  rw [show pull_responses responses5 = PullResult.write responses5 from rfl] at h
  cases h

/-- C5 amended: when the fetched response set reports total_items >= 1000, or
reports a nonzero total_items together with a page count exceeding 1,
pull_responses raises the distinct pagination RuntimeError, an outcome under
which nothing is written for that form. -/
theorem c5_amended (responses : Dict) (n : Int)
    (hcnt : pyget responses "total_items" = PyVal.int n) :
    (1000 ≤ n → pull_responses responses = PullResult.paginationErr) ∧
    (n ≠ 0 → ∀ p : Int, pyget responses "page_count" = PyVal.int p → 1 < p →
      pull_responses responses = PullResult.paginationErr) := by
  constructor
  · intro hge
    have hn0 : ¬ n = 0 := by omega
    simp [pull_responses, hcnt, py_eq_int0, hn0, py_ge_int, hge]
  · intro hne p hpc hgt
    by_cases hge : 1000 ≤ n
    · simp [pull_responses, hcnt, py_eq_int0, hne, py_ge_int, hge]
    · simp [pull_responses, hcnt, py_eq_int0, hne, py_ge_int, hge, hpc,
        py_gt_int, hgt]

/-- C5 amended, witness: Scenario D, a form reporting total_items 1000, raises
the pagination error. -/
theorem c5_amended_witness :
    pull_responses responsesD = PullResult.paginationErr :=
  (c5_amended responsesD 1000 rfl).1 (by norm_num)

theorem sanitize_answer_idem (rid : PyVal) (hr : hashable rid = true)
    (a a' : PyVal) (h : sanitize_answer rid a = some a') :
    sanitize_answer rid a' = some a' := by
  rcases sanitize_answer_inv rid a a' h with ⟨af, rfl, hcase⟩
  rcases hcase with ⟨he, hh, rfl⟩ | ⟨he, rfl⟩
  · have htype : pyget (dset af "email" rid) "type" = pyget af "type" :=
      pyget_dset_ne af "email" "type" rid (by decide)
    have hemail : pyget (dset af "email" rid) "email" = rid :=
      pyget_dset_self af "email" rid
    simp [sanitize_answer, htype, he, hemail, hr, dset_dset_self]
  · simp [sanitize_answer, he]

theorem sanitize_response_idem (resp resp' : PyVal)
    (hr : resp_rid_hashable resp = true)
    (h : sanitize_response resp = some resp') :
    sanitize_response resp' = some resp' ∧ resp_rid_hashable resp' = true := by
  rcases sanitize_response_inv resp resp' h with ⟨rf, ans, ans', rfl, hans, hmap, rfl⟩
  have hrid : pyget (dset rf "answers" (PyVal.list ans')) "response_id"
      = pyget rf "response_id" :=
    pyget_dset_ne rf "answers" "response_id" _ (by decide)
  have hansq : pyget (dset rf "answers" (PyVal.list ans')) "answers"
      = PyVal.list ans' :=
    pyget_dset_self rf "answers" _
  have hrh : hashable (pyget rf "response_id") = true := by
    simpa [resp_rid_hashable] using hr
  have hmap' : mapOpt (sanitize_answer (pyget rf "response_id")) ans' = some ans' :=
    mapOpt_idem_all _ (fun _ => true)
      (fun a b _ hab => ⟨sanitize_answer_idem _ hrh a b hab, rfl⟩)
      ans ans' (by simp) hmap
  constructor
  · simp [sanitize_response, hansq, hrid, hmap', dset_dset_self]
  · simp [resp_rid_hashable, hrid, hrh]

/-- C6: sanitize is idempotent on every response collection of the data model,
in which each response_id is a string (hence hashable): a second application
returns the first output unchanged. -/
theorem c6_idempotent (r e : Dict) (hr : hashable_rids r = true)
    (h : sanitize_responses r = some e) : sanitize_responses e = some e := by
  rcases sanitize_responses_inv r e h with ⟨items, items', hit, hmap, rfl⟩
  have hall : items.all resp_rid_hashable = true := by
    simpa [hashable_rids, hit] using hr
  have hmap' : mapOpt sanitize_response items' = some items' :=
    mapOpt_idem_all sanitize_response resp_rid_hashable
      (fun a b hpa hab => sanitize_response_idem a b hpa hab)
      items items' hall hmap
  have hit' : pyget (dset r "items" (PyVal.list items')) "items"
      = PyVal.list items' :=
    pyget_dset_self r "items" _
  simp [sanitize_responses, hit', hmap', dset_dset_self]

/-- C6, witness: sanitizing the Scenario A output a second time returns it
unchanged. -/
theorem c6_idempotent_witness :
    sanitize_responses scenarioA_out = some scenarioA_out :=
  c6_idempotent scenarioA scenarioA_out rfl rfl

/-- C7: sanitize preserves structure: the items lists pair up in order and in
equal number, each response keeps its response_id, the answers lists pair up
in order and in equal number, the type field of every answer is unchanged,
and every non-email answer is identical before and after. -/
theorem c7_frame (r e : Dict) (h : sanitize_responses r = some e) :
    respects answer_frame r e := by
  refine sanitize_respects answer_frame ?_ r e h
  intro rid a a' ha
  rcases sanitize_answer_inv rid a a' ha with ⟨af, rfl, hcase⟩
  rcases hcase with ⟨he, hh, rfl⟩ | ⟨he, rfl⟩
  · exact ⟨af, dset af "email" rid, rfl, rfl,
      pyget_dset_ne af "email" "type" rid (by decide),
      fun hne => by rw [he] at hne; cases hne⟩
  · exact ⟨af, af, rfl, rfl, rfl, fun _ => rfl⟩

/-- C7, witness: the frame conditions hold on Scenario A. -/
theorem c7_frame_witness : respects answer_frame scenarioA scenarioA_out :=
  c7_frame scenarioA scenarioA_out rfl

/-- C9: the sanitizer rewrite touches only the record field named email: every
other field of every answer (in particular value, even on email-type answers)
is exactly as in the input, an email-type answer ends with an email field equal
to the response_id of its response (the field is added when absent), and a
non-email answer keeps exactly its fields. -/
theorem c9_email_field (r e : Dict) (h : sanitize_responses r = some e) :
    respects answer_email_only r e := by
  refine sanitize_respects answer_email_only ?_ r e h
  intro rid a a' ha
  rcases sanitize_answer_inv rid a a' ha with ⟨af, rfl, hcase⟩
  rcases hcase with ⟨he, hh, rfl⟩ | ⟨he, rfl⟩
  · exact ⟨af, dset af "email" rid, rfl, rfl,
      fun k hk => dget_dset_ne af "email" k rid hk,
      fun _ => dget_dset_self af "email" rid,
      fun hne => by rw [he] at hne; cases hne⟩
  · refine ⟨af, af, rfl, rfl, fun k _ => rfl, ?_, fun _ => rfl⟩
    intro hem
    rw [he] at hem
    cases hem

/-- C9, witness: on Scenario A, where the email-type answer has a value field
and no email field. -/
theorem c9_email_field_witness : respects answer_email_only scenarioA scenarioA_out :=
  c9_email_field scenarioA scenarioA_out rfl

/-- C10: sanitize succeeds only when the input dict holds an items list whose
responses are dicts each holding an answers list; when the items key is absent
it raises (Option.none), and when some response is a dict without an answers
key it raises as well. -/
theorem c10_totality (r : Dict) :
    ((sanitize_responses r).isSome = true →
      ∃ items, pyget r "items" = PyVal.list items ∧
        ∀ resp ∈ items, ∃ rf ans, resp = PyVal.obj rf ∧
          pyget rf "answers" = PyVal.list ans) ∧
    (dget r "items" = Option.none → sanitize_responses r = Option.none) ∧
    (∀ items, pyget r "items" = PyVal.list items →
      ∀ resp ∈ items, ∀ rf, resp = PyVal.obj rf → dget rf "answers" = Option.none →
        sanitize_responses r = Option.none) := by
  refine ⟨?_, ?_, ?_⟩
  · intro hs
    rcases Option.isSome_iff_exists.mp hs with ⟨e, he⟩
    rcases sanitize_responses_inv r e he with ⟨items, items', hit, hmap, _⟩
    refine ⟨items, hit, ?_⟩
    intro resp hresp
    rcases mapOpt_some_of_mem _ _ _ hmap resp hresp with ⟨resp', hresp'⟩
    rcases sanitize_response_inv resp resp' hresp' with ⟨rf, ans, ans0, rfl, hans, hm0, h0⟩
    exact ⟨rf, ans, rfl, hans⟩
  · intro habs
    have hpg : pyget r "items" = PyVal.none := by simp [pyget, habs]
    simp [sanitize_responses, hpg]
  · intro items hit resp hresp rf hobj hnoans
    subst hobj
    have hnone : sanitize_response (PyVal.obj rf) = Option.none := by
      have hpg : pyget rf "answers" = PyVal.none := by simp [pyget, hnoans]
      simp [sanitize_response, hpg]
    simp [sanitize_responses, hit, mapOpt_none_of_mem _ _ _ hresp hnone]

/-- C10, witness: a dict without an items key makes sanitize raise. -/
theorem c10_totality_witness : sanitize_responses noItems = Option.none :=
  (c10_totality noItems).2.1 rfl

/-- C8: to_machine_friendly_title agrees, on every title, with the function the
spec describes, namely lowercase the title, replace each space with a hyphen
and each ampersand with the word and, and transform no other character; and on
the concrete title of Scenario C it yields dogs-and-children-survey. -/
theorem c8_slug :
    (∀ t : String, to_machine_friendly_title t = slug_spec t) ∧
    to_machine_friendly_title "Dogs & Children Survey" = "dogs-and-children-survey" := by
  refine ⟨?_, rfl⟩
  intro t
  show String.mk (str_lower (str_translate t.data)) = String.mk (slug_spec_chars t.data)
  rw [slug_chars_eq]

end TypeformCLI
